import Mathlib

set_option autoImplicit false

/-
Verification of the SketchFlow client against its design description.

The definitions below are a shallow embedding of the conversion lifecycle
controller (frontend/src/app/layout.tsx, the Home component), the upload
validation (SketchUpload), the redirect-survival sessionStorage usage, the
no-op Supabase adapter (frontend/src/utils/supabase/client.ts), the auth
callback route (frontend/src/app/auth/callback/page.tsx), and the three
renderer adapters (MermaidPreview, DrawioPreview, PlantUMLPreview).
-/

namespace SketchFlow

/-- ConversionState in layout.tsx: idle, uploading, processing, completed, error. -/
inductive ConvState where
  | idle
  | uploading
  | processing
  | completed
  | error
deriving DecidableEq, Repr

/-- DiagramFormat in layout.tsx: mermaid or drawio. -/
inductive DiagramFormat where
  | mermaid
  | drawio
deriving DecidableEq, Repr

/-- The data of a File object that the upload path inspects: MIME type and byte size. -/
structure FileData where
  ftype : String
  size : Nat
deriving DecidableEq, Repr

/-- The react state of the Home component: conversionState, selectedFile, notes,
format, generatedDiagram and jobId (layout.tsx lines 366-371). -/
structure HomeState where
  conversionState : ConvState
  selectedFile : Option FileData
  notes : String
  format : DiagramFormat
  generatedDiagram : String
  jobId : String
deriving DecidableEq, Repr

/-- The useState initial values: idle, no file, empty notes, mermaid, empty diagram, empty job id. -/
def initialHomeState : HomeState :=
  { conversionState := .idle
    selectedFile := none
    notes := ""
    format := .mermaid
    generatedDiagram := ""
    jobId := "" }

/-- handleFileSelect (layout.tsx 412-415): store the file and move to uploading. -/
def handleFileSelect (s : HomeState) (f : FileData) : HomeState :=
  { s with selectedFile := some f, conversionState := .uploading }

/-- The notes change handler wired to the textarea: setNotes. -/
def updateNotes (s : HomeState) (t : String) : HomeState :=
  { s with notes := t }

/-- The format change handler wired to the format buttons: setFormat. -/
def updateFormat (s : HomeState) (fmt : DiagramFormat) : HomeState :=
  { s with format := fmt }

/-- handleReset (layout.tsx 473-478): sets conversionState to idle, clears the
selected file, the notes and the generated diagram.  It issues no setJobId call,
so the job id survives a reset; the format is likewise untouched. -/
def handleReset (s : HomeState) : HomeState :=
  { s with
    conversionState := .idle
    selectedFile := none
    notes := ""
    generatedDiagram := "" }

/-! Upload validation (SketchUpload, validateImageFile). -/

/-- The allow-list of MIME types in validateImageFile. -/
def validImageTypes : List String :=
  ["image/jpeg", "image/jpg", "image/png", "image/webp"]

/-- The size cap in validateImageFile: 10 * 1024 * 1024 bytes. -/
def maxImageSize : Nat := 10 * 1024 * 1024

/-- Result record of validateImageFile: an isValid flag and an error message. -/
structure ValidationResult where
  isValid : Bool
  errMsg : String
deriving DecidableEq, Repr

/-- validateImageFile (SketchUpload): reject a type outside the allow-list, then
reject a size above the cap, otherwise accept. -/
def validateImageFile (f : FileData) : ValidationResult :=
  if ¬ (validImageTypes.contains f.ftype) then
    { isValid := false, errMsg := "Please upload a JPG, PNG, or WebP image file." }
  else if f.size > maxImageSize then
    { isValid := false, errMsg := "File size must be less than 10MB." }
  else
    { isValid := true, errMsg := "" }

/-- handleFileChange / handleDrop in SketchUpload composed with handleFileSelect:
a valid file is forwarded to onFileSelect (which stores it and enters uploading);
an invalid one only surfaces the validation error and the session is untouched. -/
def selectArtifact (s : HomeState) (f : FileData) : HomeState × Option String :=
  let v := validateImageFile f
  if v.isValid then (handleFileSelect s f, none) else (s, some v.errMsg)

/-! Conversion backend call (handleConvert, layout.tsx 417-471).

The response JSON of POST /api/convert has exactly two shapes
(tech docs, section on the convert endpoint): a completed body carrying
result.code and an optional result.job_id, or a failed body carrying an
error string. -/

/-- Parsed response body of POST /api/convert. -/
inductive ConvertResponse where
  | completed (code : String) (jobId : Option String)
  | failed (errMsg : String)
deriving DecidableEq, Repr

/-- Observable outcome of the fetch call inside handleConvert. -/
inductive FetchOutcome where
  | ok (body : ConvertResponse)
  | httpError (status : Nat)
  | netError
  | aborted
deriving DecidableEq, Repr

/-- Kind of error reaching the catch block of handleConvert (only logged there). -/
inductive CaughtErr where
  | http (status : Nat)
  | network
  | abortTimeout
deriving DecidableEq, Repr

/-- The javascript expression `v || ''` on an optional string: an absent or
empty value collapses to the empty string. -/
def jsOrEmpty : Option String → String
  | none => ""
  | some v => if v = "" then "" else v

/-- The two success-body branches of handleConvert (layout.tsx 459-466): a
completed body stores the code and the job id and enters completed; a failed
body enters error. -/
def applyResponse (s : HomeState) : ConvertResponse → HomeState
  | .completed code jid =>
      { s with
        generatedDiagram := code
        jobId := jsOrEmpty jid
        conversionState := .completed }
  | .failed _ => { s with conversionState := .error }

/-- First half of handleConvert: the only guard is the missing-file check
(`if (!selectedFile) return`); with a file present it sets processing and
issues one outbound request.  The second component counts requests issued. -/
def submitStart (s : HomeState) : HomeState × Nat :=
  match s.selectedFile with
  | none => (s, 0)
  | some _ => ({ s with conversionState := .processing }, 1)

/-- Second half of handleConvert: non-2xx responses throw into the catch block,
as do network errors and the abort; all of them set error. -/
def finishConvert (s : HomeState) : FetchOutcome → HomeState × Option CaughtErr
  | .ok body => (applyResponse s body, none)
  | .httpError st => ({ s with conversionState := .error }, some (.http st))
  | .netError => ({ s with conversionState := .error }, some .network)
  | .aborted => ({ s with conversionState := .error }, some .abortTimeout)

/-- Result of one handleConvert invocation: the new component state, the number
of outbound requests issued, and the error that reached the catch block. -/
structure SubmitResult where
  state : HomeState
  requestsSent : Nat
  caught : Option CaughtErr
deriving DecidableEq, Repr

/-- One full handleConvert invocation given the fetch outcome. -/
def handleConvert (s : HomeState) (o : FetchOutcome) : SubmitResult :=
  match s.selectedFile with
  | none => { state := s, requestsSent := 0, caught := none }
  | some _ =>
      let s1 := { s with conversionState := .processing }
      let r := finishConvert s1 o
      { state := r.1, requestsSent := 1, caught := r.2 }

/-- The hard timeout installed around the fetch:
`setTimeout(() => controller.abort(), 300000)`. -/
def convertTimeoutMs : Nat := 300000

/-- A fetch whose latency reaches the timeout is observed as an abort, because
the timer fires and the AbortController cancels the in-flight request. -/
def observedOutcome (elapsedMs : Nat) (o : FetchOutcome) : FetchOutcome :=
  if convertTimeoutMs ≤ elapsedMs then .aborted else o

/-- The convert button in ConversionForm carries
`disabled=(not file or isProcessing)`, so it is enabled exactly when a file is
selected and the state is not processing. -/
def convertButtonEnabled (s : HomeState) : Bool :=
  s.selectedFile.isSome && !(s.conversionState == ConvState.processing)

/-! Redirect-survival store: the sessionStorage keys sf.redirect and
sf.previewState.  setItem replaces the value at a key, getItem reads it,
removeItem deletes it; the consuming sites read and then delete. -/

/-- The subset of the session stashed before an OAuth redirect
(layout.tsx 396-410): format, diagramCode, jobId and the constant
conversionState tag "completed". -/
structure PreviewSnapshot where
  format : DiagramFormat
  diagramCode : String
  jobId : String
  stateTag : String
deriving DecidableEq, Repr

/-- A value stored in sessionStorage by this app: the sf.redirect return path,
or the sf.previewState snapshot (serialized by the platform JSON codec, which
round-trips these flat records; we keep them structured). -/
inductive StoredVal where
  | path (p : String)
  | preview (snap : PreviewSnapshot)
deriving DecidableEq, Repr

/-- Tab-scoped key-value storage, most recent write first. -/
abbrev Store : Type := List (String × StoredVal)

namespace Store

/-- getItem. -/
def load : Store → String → Option StoredVal
  | [], _ => none
  | (k', v) :: rest, k => if k' = k then some v else load rest k

/-- removeItem. -/
def erase : Store → String → Store
  | [], _ => []
  | (k', v) :: rest, k =>
      if k' = k then erase rest k else (k', v) :: erase rest k

/-- setItem: the key now maps to the new value. -/
def save (m : Store) (k : String) (v : StoredVal) : Store :=
  (k, v) :: erase m k

/-- Read-then-delete, the consumption pattern of both sf.redirect and
sf.previewState. -/
def take (m : Store) (k : String) : Option StoredVal × Store :=
  (load m k, erase m k)

end Store

/-- The beforeunload handler (layout.tsx 396-410): only when an auth redirect is
queued and the session is completed with a non-empty diagram does it stash the
snapshot under sf.previewState. -/
def saveBeforeUnload (s : HomeState) (hasRedirect : Bool) (m : Store) : Store :=
  if hasRedirect && s.conversionState == ConvState.completed
      && !(s.generatedDiagram == "") then
    m.save "sf.previewState"
      (.preview
        { format := s.format
          diagramCode := s.generatedDiagram
          jobId := s.jobId
          stateTag := "completed" })
  else m

/-- The restore effect (layout.tsx 377-393): a parsed snapshot with a truthy
diagramCode and format restores format, diagram, jobId and sets completed;
anything else leaves the state alone.  (format, an enum string, is always
truthy; jobId passes through `saved.jobId || ''`.) -/
def restorePreview (s : HomeState) (snap : PreviewSnapshot) : HomeState :=
  if snap.diagramCode = "" then s
  else
    { s with
      format := snap.format
      generatedDiagram := snap.diagramCode
      jobId := jsOrEmpty (some snap.jobId)
      conversionState := .completed }

/-- The whole mount-time restore path: take sf.previewState from storage (the
finally block removes it in every case) and restore if a snapshot was present. -/
def restoreFromStore (s : HomeState) (m : Store) : HomeState × Store :=
  match m.take "sf.previewState" with
  | (some (.preview snap), m') => (restorePreview s snap, m')
  | (_, m') => (s, m')

/-- The callback route reads sf.redirect, defaults to the root path, and then
removes the key before navigating (callback page 62-70). -/
def callbackConsumeRedirect (m : Store) : String × Store :=
  let target :=
    match m.load "sf.redirect" with
    | some (.path p) => p
    | _ => "/"
  (target, m.erase "sf.redirect")

/-! Renderer adapters. -/

/-- Outcome of one renderer adapter invocation: still loading, ready with an
explicit nothing-to-display indicator, ready with rendered content, or a
renderer error with a message. -/
inductive RendererOutcome where
  | loading
  | readyEmpty (message : String)
  | readyContent
  | failedMsg (message : String)
deriving DecidableEq, Repr

/-- Whether an outcome is the ready nothing-to-display panel. -/
def RendererOutcome.isReadyEmpty : RendererOutcome → Bool
  | .readyEmpty _ => true
  | _ => false

/-- Whether an outcome is a renderer error. -/
def RendererOutcome.isFailure : RendererOutcome → Bool
  | .failedMsg _ => true
  | _ => false

/-- The empty-input panel text of PlantUMLPreview. -/
def plantUMLEmptyMessage : String := "No UML code to preview."

/-- Whether a character is stripped by the javascript trim method. -/
def isTrimmedChar (c : Char) : Bool :=
  c = ' ' || c = '\t' || c = '\n' || c = '\r'

/-- Drop leading trimmed characters. -/
def trimLeading : List Char → List Char
  | [] => []
  | c :: rest => if isTrimmedChar c then trimLeading rest else c :: rest

/-- The javascript trim method: strip whitespace at both ends. -/
def jsTrim (s : String) : String :=
  String.mk (((trimLeading s.data).reverse |> trimLeading).reverse)

/-- PlantUMLPreview (ExamplesSwitcher.tsx): blank code short-circuits to the
nothing-to-display panel before any encoding; otherwise the encoded server
image is shown, and an image load failure switches to the error panel. -/
def plantUMLRender (code : String) (imgLoadFailed : Bool) : RendererOutcome :=
  if jsTrim code = "" then .readyEmpty plantUMLEmptyMessage
  else if imgLoadFailed then .failedMsg "Failed to load UML preview."
  else .readyContent

/-- Events that can resolve the DrawioPreview handshake: the init or ready
message from the embedded frame, the 10 second timeout, or an iframe error. -/
inductive DrawioEvent where
  | initMsg
  | readyMsg
  | timeout
  | frameError
deriving DecidableEq, Repr

/-- The DrawioPreview render effect (DrawioPreview.tsx 49-167): it starts in
loading with no error; with empty xml it returns before creating the iframe
(`if (not containerRef.current or not xml) return`), leaving the loading state
in place; otherwise the outcome follows the handshake. -/
def drawioRender (xml : String) (ev : DrawioEvent) : RendererOutcome :=
  if xml = "" then .loading
  else
    match ev with
    | .initMsg => .readyContent
    | .readyMsg => .readyContent
    | .timeout => .failedMsg "Diagram preview timed out"
    | .frameError => .failedMsg "Failed to load diagram viewer"

/-- The MermaidPreview effect (MermaidPreview.tsx 16-60): there is no
blank-input branch; the code is handed to mermaid.parse and then
mermaid.render, and the outcome is entirely the parser result (the thrown
message on failure, the rendered svg otherwise). -/
def mermaidRender (parse : String → Except String String) (code : String) :
    RendererOutcome :=
  match parse code with
  | .error e => .failedMsg e
  | .ok _ => .readyContent

/-! Base64 chunking in DrawioPreview (uint8ToBase64, lines 16-25). -/

/-- The chunk size of uint8ToBase64. -/
def chunkSize : Nat := 0x8000

/-- String.fromCharCode over a byte array: one character per byte. -/
def bytesToChars (bs : List Nat) : List Char :=
  bs.map Char.ofNat

/-- The chunk loop of uint8ToBase64: successive 0x8000-byte subarrays are
turned into character runs and joined. -/
def chunkedChars (bs : List Nat) : List Char :=
  if bs = [] then []
  else bytesToChars (bs.take chunkSize) ++ chunkedChars (bs.drop chunkSize)
termination_by bs.length
decreasing_by
  simp only [List.length_drop, chunkSize]
  have : bs.length ≠ 0 := by
    intro h
    exact ‹bs ≠ []› (List.eq_nil_of_length_eq_zero h)
  omega

/-- The base64 alphabet used by btoa. -/
def base64Alphabet : List Char :=
  "ABCDEFGHIJKLMNOPQRSTUVWXYZabcdefghijklmnopqrstuvwxyz0123456789+/".toList

/-- One alphabet character. -/
def b64Char (n : Nat) : Char :=
  base64Alphabet.getD n 'A'

/-- btoa on a sequence of character codes: standard base64 with padding. -/
def base64Encode : List Nat → String
  | [] => ""
  | [b0] =>
      let w := b0 % 256
      String.mk [b64Char (w / 4), b64Char (w % 4 * 16), '=', '=']
  | [b0, b1] =>
      let w0 := b0 % 256
      let w1 := b1 % 256
      String.mk [b64Char (w0 / 4), b64Char (w0 % 4 * 16 + w1 / 16),
        b64Char (w1 % 16 * 4), '=']
  | b0 :: b1 :: b2 :: rest =>
      let w0 := b0 % 256
      let w1 := b1 % 256
      let w2 := b2 % 256
      String.mk [b64Char (w0 / 4), b64Char (w0 % 4 * 16 + w1 / 16),
        b64Char (w1 % 16 * 4 + w2 / 64), b64Char (w2 % 64)]
        ++ base64Encode rest

/-- btoa of a javascript string: base64 of its character codes. -/
def btoa (cs : List Char) : String :=
  base64Encode (cs.map Char.toNat)

/-- uint8ToBase64 from DrawioPreview: chunked conversion to a character string,
one join, one btoa. -/
def uint8ToBase64 (bs : List Nat) : String :=
  btoa (chunkedChars bs)

/-- Reference unchunked encoding: btoa of the byte-to-character string of the
whole array. -/
def referenceBase64 (bs : List Nat) : String :=
  btoa (bytesToChars bs)

/-! Credential/session boundary adapter: the no-op Supabase client
(frontend/src/utils/supabase/client.ts, createNoopSupabase) used when the
provider endpoint or public key is absent, and the auth callback route that
calls into it. -/

/-- The auth methods this code base invokes on the client. -/
inductive AuthMethod where
  | getSession
  | onAuthStateChange
  | signInWithOAuth
  | signOut
  | exchangeCodeForSession
  | getUser
  | setSession
deriving DecidableEq, Repr

/-- The inert reply shapes of the no-op client.  A session, user or url slot
holding none models the null the stub returns; subscriptionReply carries the
immediately usable unsubscribe closure. -/
inductive AuthReply where
  | sessionReply (session : Option Unit)
  | subscriptionReply
  | oauthReply (url : Option String)
  | signOutReply
  | exchangeReply (session : Option Unit) (user : Option Unit)
  | userReply (user : Option Unit)
deriving DecidableEq, Repr

/-- The method table of createNoopSupabase: the six stubbed methods and their
inert results.  setSession is not among the stubs, so looking it up yields
nothing. -/
def noopAuth : AuthMethod → Option AuthReply
  | .getSession => some (.sessionReply none)
  | .onAuthStateChange => some .subscriptionReply
  | .signInWithOAuth => some (.oauthReply none)
  | .signOut => some .signOutReply
  | .exchangeCodeForSession => some (.exchangeReply none none)
  | .getUser => some (.userReply none)
  | .setSession => none

/-- What a call observes: the method returned a value, or the property was
undefined and the call raised a TypeError to the caller. -/
inductive CallOutcome where
  | returned (r : AuthReply)
  | threwTypeError
deriving DecidableEq, Repr

/-- Invoking client.auth.m: a missing method is undefined and calling it
throws. -/
def invokeAuth (impl : AuthMethod → Option AuthReply) (m : AuthMethod) :
    CallOutcome :=
  match impl m with
  | some r => .returned r
  | none => .threwTypeError

/-- The session-completion operation the callback route picks
(callback page 22-56): a code query parameter selects exchangeCodeForSession;
otherwise hash tokens select setSession; otherwise it falls back to
getSession. -/
def callbackCompletionMethod (hasCode : Bool) (hasHashTokens : Bool) :
    AuthMethod :=
  if hasCode then .exchangeCodeForSession
  else if hasHashTokens then .setSession
  else .getSession

/-- One run of the callback route against a client: the completion call runs
inside the route try/catch (a throw is caught and logged, never propagated),
then the stored return path is consumed and the redirect issued. -/
def callbackRun (impl : AuthMethod → Option AuthReply)
    (hasCode hasHashTokens : Bool) (m : Store) :
    Bool × String × Store :=
  let out := invokeAuth impl (callbackCompletionMethod hasCode hasHashTokens)
  let caughtThrow := out == CallOutcome.threwTypeError
  let r := callbackConsumeRedirect m
  (caughtThrow, r.1, r.2)

/-! Reachability of Home component states.  Each step is one operation, enabled
exactly where the component wiring exposes it: SketchUpload (and so
selectArtifact) renders only in idle; the notes and format controls are
enabled only while uploading (ConversionForm disables them while processing);
the convert button requires a file and not processing; the restore effect runs
on mount; reset is a total handler.  The parameter P constrains which fetch
outcomes the backend may produce. -/

inductive Reachable (P : FetchOutcome → Prop) : HomeState → Prop where
  | init : Reachable P initialHomeState
  | select {s : HomeState} {f : FileData} :
      Reachable P s → s.conversionState = .idle →
      (validateImageFile f).isValid = true →
      Reachable P (handleFileSelect s f)
  | setNotes {s : HomeState} {t : String} :
      Reachable P s → s.conversionState = .uploading →
      Reachable P (updateNotes s t)
  | setFormat {s : HomeState} {fmt : DiagramFormat} :
      Reachable P s → s.conversionState = .uploading →
      Reachable P (updateFormat s fmt)
  | submitBegin {s : HomeState} :
      Reachable P s → s.conversionState = .uploading →
      s.selectedFile.isSome = true →
      Reachable P (submitStart s).1
  | submitEnd {s : HomeState} {o : FetchOutcome} :
      Reachable P s → s.conversionState = .processing → P o →
      Reachable P (finishConvert s o).1
  | resetStep {s : HomeState} :
      Reachable P s → Reachable P (handleReset s)
  | restoreStep {s : HomeState} {snap : PreviewSnapshot} :
      Reachable P s → snap.diagramCode ≠ "" →
      Reachable P (restorePreview s snap)

/-- No constraint on the backend: any response body may arrive. -/
def anyOutcome (_ : FetchOutcome) : Prop := True

/-- Well-formed backend responses: a completed body carries a non-empty code. -/
def wellFormedOutcome : FetchOutcome → Prop
  | .ok (.completed code _) => code ≠ ""
  | _ => True

/-! Theorems. -/

/-- validateImageFile accepts exactly the allow-listed types within the size cap. -/
theorem validateImageFile_valid_iff (f : FileData) :
    (validateImageFile f).isValid = true ↔
      (f.ftype ∈ validImageTypes ∧ f.size ≤ maxImageSize) := by
  unfold validateImageFile
  by_cases hc : f.ftype ∈ validImageTypes
  · by_cases hs : f.size ≤ maxImageSize
    · simp [hc, hs, Nat.not_lt.mpr hs]
    · simp [hc, hs, Nat.lt_of_not_le hs]
  · simp [hc]

/-- A sample in-budget png: 2 MB. -/
def samplePng : FileData := { ftype := "image/png", size := 2 * 1024 * 1024 }

/-- A sample over-budget jpeg: 15 MB. -/
def oversizedJpeg : FileData := { ftype := "image/jpeg", size := 15 * 1024 * 1024 }

/-- C4.  selectArtifact succeeds, storing the artifact unchanged and moving
Idle to Uploading, exactly when the MIME type is allow-listed and the size is
at most 10 MiB; any violation returns the corresponding validation message and
leaves the session unchanged. -/
theorem selectArtifact_characterization (s : HomeState) (f : FileData)
    (_hidle : s.conversionState = .idle) :
    ((selectArtifact s f).2 = none ↔
      (f.ftype ∈ validImageTypes ∧ f.size ≤ maxImageSize)) ∧
    (f.ftype ∈ validImageTypes → f.size ≤ maxImageSize →
      selectArtifact s f =
        ({ s with conversionState := .uploading, selectedFile := some f }, none)) ∧
    (f.ftype ∉ validImageTypes →
      selectArtifact s f = (s, some "Please upload a JPG, PNG, or WebP image file.")) ∧
    (f.ftype ∈ validImageTypes → maxImageSize < f.size →
      selectArtifact s f = (s, some "File size must be less than 10MB.")) := by
  refine ⟨?_, ?_, ?_, ?_⟩
  · constructor
    · intro hnone
      by_contra hnot
      have hinvalid : (validateImageFile f).isValid = false := by
        cases h : (validateImageFile f).isValid
        · rfl
        · exact absurd ((validateImageFile_valid_iff f).mp h) hnot
      simp [selectArtifact, hinvalid] at hnone
    · intro hok
      have hvalid := (validateImageFile_valid_iff f).mpr hok
      simp [selectArtifact, hvalid]
  · intro hc hs
    have hvalid := (validateImageFile_valid_iff f).mpr ⟨hc, hs⟩
    simp [selectArtifact, hvalid, handleFileSelect]
  · intro hc
    simp [selectArtifact, validateImageFile, hc]
  · intro hc hs
    simp [selectArtifact, validateImageFile, hc, hs]

/-- Witness for C4: a 2 MB png in the idle state is accepted and a 15 MB jpeg
is rejected with the size message, the session unchanged. -/
theorem selectArtifact_characterization_witness :
    selectArtifact initialHomeState samplePng =
      ({ initialHomeState with
          conversionState := .uploading, selectedFile := some samplePng }, none) ∧
    selectArtifact initialHomeState oversizedJpeg =
      (initialHomeState, some "File size must be less than 10MB.") :=
  ⟨(selectArtifact_characterization initialHomeState samplePng rfl).2.1
      (by decide) (by decide),
   (selectArtifact_characterization initialHomeState oversizedJpeg rfl).2.2.2
      (by decide) (by decide)⟩

/-- A completed session holding a result and its job id. -/
def sampleCompletedState : HomeState :=
  { conversionState := .completed
    selectedFile := some samplePng
    notes := "two boxes"
    format := .mermaid
    generatedDiagram := "flowchart TD; A-->B"
    jobId := "abc" }

/-- C7 counterexample.  The claim says reset clears the result job id; on the
completed session above, handleReset leaves jobId equal to abc, so the job id
is not cleared. -/
theorem reset_keeps_jobId_cex :
    (handleReset sampleCompletedState).jobId = "abc" ∧
    (handleReset sampleCompletedState).conversionState = ConvState.idle := by
  constructor <;> rfl

/-- C7 as amended.  handleReset is total (legal in every state): it returns to
Idle and clears the input artifact, the context notes and the result source,
but it retains the result job id and the target format (and the component has
no separate failure-reason field to clear). -/
theorem reset_characterization (s : HomeState) :
    handleReset s =
      { conversionState := .idle
        selectedFile := none
        notes := ""
        format := s.format
        generatedDiagram := ""
        jobId := s.jobId } := by
  cases s
  rfl

/-- An uploading session holding the sample png. -/
def sampleUploadingState : HomeState :=
  { conversionState := .uploading
    selectedFile := some samplePng
    notes := ""
    format := .mermaid
    generatedDiagram := ""
    jobId := "" }

/-- The same session once a submit is in flight. -/
def sampleProcessingState : HomeState :=
  { sampleUploadingState with conversionState := .processing }

/-- C1 counterexample.  A first submit on the uploading session puts it in
Processing, and a second invocation of the handler still issues an outbound
request (the only guard in handleConvert is the missing-file check), so two
invocations produce two requests while one is in flight. -/
theorem second_submit_issues_request_cex :
    (submitStart sampleUploadingState).1.conversionState = ConvState.processing ∧
    (submitStart (submitStart sampleUploadingState).1).2 = 1 ∧
    (submitStart sampleUploadingState).2 +
      (submitStart (submitStart sampleUploadingState).1).2 = 2 := by
  refine ⟨rfl, rfl, rfl⟩

/-- C1 as amended.  While a submit is in flight (state Processing) the convert
control in the form is disabled, so no second request can be issued through
the UI; the submit handler itself guards only on a missing artifact, and a
direct second invocation while Processing issues a request exactly when an
artifact is present. -/
theorem submit_inflight_guard (s : HomeState)
    (hproc : s.conversionState = .processing) :
    convertButtonEnabled s = false ∧
    (submitStart s).2 = if s.selectedFile.isSome then 1 else 0 := by
  constructor
  · simp [convertButtonEnabled, hproc]
  · cases h : s.selectedFile <;> simp [submitStart, h]

/-- Witness for C1 as amended, on the concrete in-flight session. -/
theorem submit_inflight_guard_witness :
    convertButtonEnabled sampleProcessingState = false ∧
    (submitStart sampleProcessingState).2 =
      if sampleProcessingState.selectedFile.isSome then 1 else 0 :=
  submit_inflight_guard sampleProcessingState rfl

/-- C2.  With an artifact present, a submit whose response body is completed
enters Completed storing the returned code and job id; a failed body, a
non-2xx response, and a network error all enter the error state; each submit
issues exactly one request. -/
theorem submit_outcome_transitions (s : HomeState) (f : FileData)
    (hf : s.selectedFile = some f) :
    (∀ code jid,
      handleConvert s (.ok (.completed code jid)) =
        { state :=
            { s with
              conversionState := .completed
              generatedDiagram := code
              jobId := jsOrEmpty jid }
          requestsSent := 1
          caught := none }) ∧
    (∀ e,
      handleConvert s (.ok (.failed e)) =
        { state := { s with conversionState := .error }
          requestsSent := 1
          caught := none }) ∧
    (∀ st,
      handleConvert s (.httpError st) =
        { state := { s with conversionState := .error }
          requestsSent := 1
          caught := some (.http st) }) ∧
    (handleConvert s .netError =
      { state := { s with conversionState := .error }
        requestsSent := 1
        caught := some .network }) := by
  refine ⟨?_, ?_, ?_, ?_⟩ <;>
    intros <;> simp [handleConvert, hf, finishConvert, applyResponse]

/-- Witness for C2: the scenario-A response restores the xml code and the abc
job id on the concrete uploading session. -/
theorem submit_outcome_transitions_witness :
    handleConvert sampleUploadingState
        (.ok (.completed "<mxGraphModel/>" (some "abc"))) =
      { state :=
          { sampleUploadingState with
            conversionState := .completed
            generatedDiagram := "<mxGraphModel/>"
            jobId := jsOrEmpty (some "abc") }
        requestsSent := 1
        caught := none } :=
  (submit_outcome_transitions sampleUploadingState samplePng rfl).1
    "<mxGraphModel/>" (some "abc")

/-- C6.  A submit whose backend call reaches the 300000 ms hard timeout is
observed as an abort: the state becomes error, the caught error is the abort
(timeout) kind, and exactly one request was sent; the timeout constant is 300
seconds. -/
theorem submit_timeout_aborts (s : HomeState) (f : FileData) (elapsedMs : Nat)
    (o : FetchOutcome) (hf : s.selectedFile = some f)
    (hlate : convertTimeoutMs ≤ elapsedMs) :
    handleConvert s (observedOutcome elapsedMs o) =
      { state := { s with conversionState := .error }
        requestsSent := 1
        caught := some .abortTimeout } ∧
    convertTimeoutMs = 300 * 1000 := by
  constructor
  · simp [observedOutcome, hlate, handleConvert, hf, finishConvert]
  · rfl

/-- Witness for C6: a fetch that would have succeeded after 300001 ms is
aborted and the concrete session fails with the timeout kind. -/
theorem submit_timeout_aborts_witness :
    handleConvert sampleUploadingState
        (observedOutcome 300001 (.ok (.completed "flowchart" none))) =
      { state := { sampleUploadingState with conversionState := .error }
        requestsSent := 1
        caught := some .abortTimeout } ∧
    convertTimeoutMs = 300 * 1000 :=
  submit_timeout_aborts sampleUploadingState samplePng 300001
    (.ok (.completed "flowchart" none)) rfl (by decide)

/-- The session produced by a completed response whose code is the empty
string: Completed, yet the stored result source is empty. -/
def emptyCodeCompletedState : HomeState :=
  { conversionState := .completed
    selectedFile := some samplePng
    notes := ""
    format := .mermaid
    generatedDiagram := ""
    jobId := "" }

/-- C3 counterexample.  The state above is reachable through the component's
own wiring (select a valid file, submit, receive a completed body whose code
is empty: handleConvert only checks that result is present, not that the code
is non-empty), and it is Completed with an empty resultSource, so the
invariant the claim states is violated. -/
theorem resultSource_invariant_cex :
    Reachable anyOutcome emptyCodeCompletedState ∧
    emptyCodeCompletedState.conversionState = ConvState.completed ∧
    emptyCodeCompletedState.generatedDiagram = "" := by
  refine ⟨?_, rfl, rfl⟩
  have h1 := @Reachable.select anyOutcome initialHomeState samplePng
    Reachable.init rfl (by decide)
  have h2 := @Reachable.submitBegin anyOutcome _ h1 rfl rfl
  exact @Reachable.submitEnd anyOutcome _
    (FetchOutcome.ok (.completed "" none)) h2 rfl ⟨⟩

/-- C3 as amended.  Provided every completed backend response carries a
non-empty code, every state reachable through the component's operations
satisfies the invariant: the result source is non-empty exactly in the
Completed state. -/
theorem resultSource_iff_completed (s : HomeState)
    (h : Reachable wellFormedOutcome s) :
    (s.generatedDiagram ≠ "" ↔ s.conversionState = ConvState.completed) := by
  induction h with
  | init => simp [initialHomeState]
  | select h hidle hv ih =>
      rename_i s f
      have hd : s.generatedDiagram = "" := by
        by_contra hne
        rw [ih.mp hne] at hidle
        exact absurd hidle (by decide)
      simp [handleFileSelect, hd]
  | setNotes h hup ih =>
      simpa [updateNotes] using ih
  | setFormat h hup ih =>
      simpa [updateFormat] using ih
  | submitBegin h hup hf ih =>
      rename_i s
      have hd : s.generatedDiagram = "" := by
        by_contra hne
        rw [ih.mp hne] at hup
        exact absurd hup (by decide)
      cases hsel : s.selectedFile with
      | none => simp [hsel] at hf
      | some f => simp [submitStart, hsel, hd]
  | submitEnd h hproc hP ih =>
      rename_i s o
      have hd : s.generatedDiagram = "" := by
        by_contra hne
        rw [ih.mp hne] at hproc
        exact absurd hproc (by decide)
      cases o with
      | ok body =>
          cases body with
          | completed code jid =>
              have hcode : code ≠ "" := hP
              simp [finishConvert, applyResponse, hcode]
          | failed e => simp [finishConvert, applyResponse, hd]
      | httpError st => simp [finishConvert, hd]
      | netError => simp [finishConvert, hd]
      | aborted => simp [finishConvert, hd]
  | resetStep h ih =>
      simp [handleReset]
  | restoreStep h hne ih =>
      rename_i s snap
      simp [restorePreview, hne]

/-- Witness for C3 as amended: the initial state is reachable and satisfies the
invariant. -/
theorem resultSource_iff_completed_witness :
    (initialHomeState.generatedDiagram ≠ "" ↔
      initialHomeState.conversionState = ConvState.completed) :=
  resultSource_iff_completed initialHomeState Reachable.init

/-- After a removeItem, a getItem of the same key finds nothing. -/
theorem Store.load_erase_self (m : Store) (k : String) :
    (m.erase k).load k = none := by
  induction m with
  | nil => rfl
  | cons p rest ih =>
      obtain ⟨k', v⟩ := p
      by_cases h : k' = k
      · simpa [Store.erase, h] using ih
      · simpa [Store.erase, Store.load, h] using ih

/-- C5.  Saving the preview snapshot and then consuming it returns exactly the
saved value; the consumption deletes it, so a second take finds nothing; the
mount-time restore run against that storage yields a Completed session with
the identical resultSource and leaves the key gone; and the stored return path
read by the callback route is likewise delivered once, after which a second
consumption falls back to the root path. -/
theorem redirect_store_roundtrip (m : Store) (snap : PreviewSnapshot)
    (s : HomeState) (p : String) (hcode : snap.diagramCode ≠ "") :
    ((m.save "sf.previewState" (.preview snap)).take "sf.previewState").1
        = some (.preview snap) ∧
    ((((m.save "sf.previewState" (.preview snap)).take
        "sf.previewState").2).load "sf.previewState" = none) ∧
    (restoreFromStore s
        (m.save "sf.previewState" (.preview snap))).1.conversionState
        = ConvState.completed ∧
    (restoreFromStore s
        (m.save "sf.previewState" (.preview snap))).1.generatedDiagram
        = snap.diagramCode ∧
    ((restoreFromStore s
        (m.save "sf.previewState" (.preview snap))).2.load "sf.previewState"
        = none) ∧
    (callbackConsumeRedirect (m.save "sf.redirect" (.path p))).1 = p ∧
    ((callbackConsumeRedirect (m.save "sf.redirect" (.path p))).2.load
        "sf.redirect" = none) ∧
    (callbackConsumeRedirect
        (callbackConsumeRedirect (m.save "sf.redirect" (.path p))).2).1
        = "/" := by
  have htake :
      ((m.save "sf.previewState" (.preview snap)).take "sf.previewState").1
        = some (.preview snap) := by
    simp [Store.save, Store.take, Store.load]
  have herase : ∀ (k : String) (v : StoredVal),
      ((m.save k v).erase k).load k = none := by
    intro k v
    simpa [Store.save, Store.erase] using
      Store.load_erase_self (m.erase k) k
  refine ⟨htake, ?_, ?_, ?_, ?_, ?_, ?_, ?_⟩
  · simpa [Store.take] using herase "sf.previewState" (.preview snap)
  · simp [restoreFromStore, Store.take, Store.save, Store.load,
      restorePreview, hcode]
  · simp [restoreFromStore, Store.take, Store.save, Store.load,
      restorePreview, hcode]
  · simpa [restoreFromStore, Store.take, Store.save, Store.load] using
      herase "sf.previewState" (.preview snap)
  · simp [callbackConsumeRedirect, Store.save, Store.load]
  · simpa [callbackConsumeRedirect] using herase "sf.redirect" (.path p)
  · have := herase "sf.redirect" (.path p)
    simp [callbackConsumeRedirect, Store.save] at this ⊢
    simp [this]

/-- Witness for C5 at the scenario-E snapshot. -/
theorem redirect_store_roundtrip_witness :
    (restoreFromStore initialHomeState
        (Store.save [] "sf.previewState"
          (.preview
            { format := .mermaid
              diagramCode := "seq A->B"
              jobId := "abc"
              stateTag := "completed" }))).1.generatedDiagram = "seq A->B" :=
  (redirect_store_roundtrip [] _ initialHomeState "/profile"
    (by decide)).2.2.2.1

/-- C8 counterexample.  The graph-XML adapter invoked with empty source text
does not produce a Ready outcome with a nothing-to-display indicator: its
render effect returns before creating the frame, so the outcome stays
Loading (it is not an Error either). -/
theorem blank_drawio_not_ready_cex :
    drawioRender "" DrawioEvent.initMsg = RendererOutcome.loading ∧
    (drawioRender "" DrawioEvent.initMsg).isReadyEmpty = false ∧
    (drawioRender "" DrawioEvent.initMsg).isFailure = false := by
  refine ⟨rfl, rfl, rfl⟩

/-- C8 as amended.  On blank input, only the UML-script adapter yields Ready
with an explicit nothing-to-display indicator (and no error); the graph-XML
adapter issues no render on empty input and remains Loading whatever the frame
handshake does (also no error); the text-diagram adapter has no blank-input
branch and never produces a nothing-to-display outcome — its result is
dictated entirely by the parser. -/
theorem blank_input_renderer_behavior (code : String) (fail : Bool)
    (ev : DrawioEvent) (parse : String → Except String String)
    (hblank : jsTrim code = "") :
    plantUMLRender code fail = RendererOutcome.readyEmpty plantUMLEmptyMessage ∧
    (plantUMLRender code fail).isFailure = false ∧
    drawioRender "" ev = RendererOutcome.loading ∧
    (drawioRender "" ev).isFailure = false ∧
    (mermaidRender parse code).isReadyEmpty = false := by
  refine ⟨?_, ?_, ?_, ?_, ?_⟩
  · simp [plantUMLRender, hblank]
  · simp [plantUMLRender, hblank, RendererOutcome.isFailure]
  · simp [drawioRender]
  · simp [drawioRender, RendererOutcome.isFailure]
  · cases h : parse code <;>
      simp [mermaidRender, h, RendererOutcome.isReadyEmpty]

/-- Witness for C8 as amended, at whitespace input and a parser that rejects
blank text. -/
theorem blank_input_renderer_behavior_witness :
    plantUMLRender "  " false = RendererOutcome.readyEmpty plantUMLEmptyMessage ∧
    drawioRender "" DrawioEvent.timeout = RendererOutcome.loading := by
  have h := blank_input_renderer_behavior "  " false DrawioEvent.timeout
    (fun _ => Except.error "No diagram type detected") (by decide)
  exact ⟨h.1, h.2.2.1⟩

/-- C9 counterexample.  setSession — the operation the auth callback route
invokes for the implicit flow — is absent from the no-op client, so invoking
it raises a TypeError to the caller instead of returning an inert default. -/
theorem noop_setSession_throws_cex :
    callbackCompletionMethod false true = AuthMethod.setSession ∧
    invokeAuth noopAuth (callbackCompletionMethod false true)
      = CallOutcome.threwTypeError := by
  refine ⟨rfl, rfl⟩

/-- C9 as amended.  Every method the no-op client actually defines returns an
inert default and never throws — null session from getSession, an immediate
unsubscribe from onAuthStateChange, no-op sign-in/sign-out, and an inert
code-flow exchange on the callback route; setSession however is not among the
stubs, so the implicit-flow completion throws, the route catches the throw
itself and still performs the stored-path redirect. -/
theorem noop_adapter_inert (m : AuthMethod) (st : Store) (q : String)
    (hm : m ≠ AuthMethod.setSession) :
    invokeAuth noopAuth m ≠ CallOutcome.threwTypeError ∧
    noopAuth AuthMethod.getSession = some (AuthReply.sessionReply none) ∧
    noopAuth AuthMethod.onAuthStateChange = some AuthReply.subscriptionReply ∧
    noopAuth AuthMethod.signInWithOAuth = some (AuthReply.oauthReply none) ∧
    noopAuth AuthMethod.signOut = some AuthReply.signOutReply ∧
    invokeAuth noopAuth (callbackCompletionMethod true false)
      = CallOutcome.returned (AuthReply.exchangeReply none none) ∧
    noopAuth AuthMethod.setSession = none ∧
    (callbackRun noopAuth false true (st.save "sf.redirect" (.path q))).1
      = true ∧
    (callbackRun noopAuth false true (st.save "sf.redirect" (.path q))).2.1
      = q := by
  refine ⟨?_, rfl, rfl, rfl, rfl, rfl, rfl, ?_, ?_⟩
  · cases m <;> first | decide | exact absurd rfl hm
  · rfl
  · simp [callbackRun, callbackConsumeRedirect, Store.save, Store.load]

/-- Witness for C9 as amended, at getSession and a concrete stored path. -/
theorem noop_adapter_inert_witness :
    invokeAuth noopAuth AuthMethod.getSession ≠ CallOutcome.threwTypeError ∧
    (callbackRun noopAuth false true
        (Store.save [] "sf.redirect" (StoredVal.path "/"))).1 = true := by
  have h := noop_adapter_inert AuthMethod.getSession [] "/" (by decide)
  exact ⟨h.1, h.2.2.2.2.2.2.2.1⟩

/-- The chunk loop concatenates to exactly the byte-to-character string of the
whole array. -/
theorem chunkedChars_eq (bs : List Nat) :
    chunkedChars bs = bytesToChars bs := by
  have H : ∀ (n : Nat) (l : List Nat), l.length ≤ n →
      chunkedChars l = bytesToChars l := by
    intro n
    induction n with
    | zero =>
        intro l hl
        have hnil : l = [] := List.eq_nil_of_length_eq_zero (Nat.le_zero.mp hl)
        subst hnil
        rw [chunkedChars]
        simp [bytesToChars]
    | succ n ih =>
        intro l hl
        by_cases hnil : l = []
        · subst hnil
          rw [chunkedChars]
          simp [bytesToChars]
        · rw [chunkedChars, if_neg hnil]
          have hdrop : (l.drop chunkSize).length ≤ n := by
            have hpos : 0 < l.length := List.length_pos.mpr hnil
            simp only [List.length_drop, chunkSize]
            omega
          rw [ih (l.drop chunkSize) hdrop]
          unfold bytesToChars
          rw [← List.map_append, List.take_append_drop]
  exact H bs.length bs (le_refl _)

/-- C10.  The chunked base64 encoder of DrawioPreview produces exactly the
reference unchunked encoding (btoa of the byte-to-character string of the
whole array) on every byte array, so the escape-hatch URL is independent of
the chunking. -/
theorem uint8ToBase64_eq_reference (bs : List Nat) :
    uint8ToBase64 bs = referenceBase64 bs := by
  unfold uint8ToBase64 referenceBase64
  rw [chunkedChars_eq]

end SketchFlow
